import Mathlib

/-!
Verification of the intel-lpmd decision core against its specification.

This file gives a shallow embedding, in Lean, of the decision algorithms of
src/lpmd_util.c and src/wlt_proxy/spike_mgmt.c, and proves or refutes the
frozen claims about them.

Modelling conventions:
- C `int` / `time_t` values are modelled as `Int`, C `unsigned long` as `Nat`,
  C `unsigned long long` as `Nat` reduced modulo 2^64 at each operation.
- Lean's `/` and `%` on `Int` are Euclidean; C division truncates toward zero.
  The two agree on nonnegative operands, and every theorem below either fixes
  concrete nonnegative inputs or carries hypotheses keeping the operands of
  each division nonnegative.
- `bc_reset_min` is a C `float`, but it only ever holds values of the form
  `60 - k` for a small integer `k` (initially `90.0`), and the expression
  `(100 - avg) * bc_reset_min / 200` is computed on small integer-valued
  floats (products below 2^24, quotients whose distance to the nearest
  integer is at least 1/200, far above the rounding error), so truncating
  the float result toward zero agrees exactly with integer division on the
  values reachable here.  It is therefore modelled as an `Int`.
- The hardware clock (`clock_gettime`) is modelled by threading an explicit
  `now` argument (seconds) through each call.
- `state_demote` (an extern int set by the policy layer) and the condition
  `get_cur_state () <= MDRT4E_MODE` (defined outside the given sources) are
  modelled as explicit `Bool` arguments, following the spec's description of
  the latter as "a policy gate based on current actuation state".
-/

/-! ## Spike burst detector (src/wlt_proxy/spike_mgmt.c)

State of the detector: the file-local variables of spike_mgmt.c.
`spike_burst_flag` and `once_flag` are C ints used as booleans and are
modelled as `Bool`. -/

structure SpikeState where
  burst_count : Int
  total_spike_time : Int
  spike_sec_prev : Int
  spike_rate_total : Int
  spike_rate_samples : Int
  burst_rate_per_min : Int
  spike_burst_flag : Bool
  bc_reset_min : Int
  once_flag : Bool
  strike_count : Int
  deriving Repr, DecidableEq

/-- Initial values of the file-local variables of spike_mgmt.c: everything is
zero/false except `bc_reset_min = 90.0`. -/
def initSpikeState : SpikeState :=
  { burst_count := 0
    total_spike_time := 0
    spike_sec_prev := 0
    spike_rate_total := 0
    spike_rate_samples := 0
    burst_rate_per_min := 0
    spike_burst_flag := false
    bc_reset_min := 90
    once_flag := false
    strike_count := 0 }

/-- MAX_TRACKED_SPIKE_TIME from spike_mgmt.c. -/
def MAX_TRACKED_SPIKE_TIME : Int := 1000

/-- MAX_BURST_COUNT from spike_mgmt.c. -/
def MAX_BURST_COUNT : Int := 1000

/-- BURST_COUNT_THRESHOLD from spike_mgmt.c. -/
def BURST_COUNT_THRESHOLD : Int := 3

/-- update_burst_count from spike_mgmt.c.  `real` is the `real_spike_burst`
argument; `gate` models `get_cur_state () <= MDRT4E_MODE`; `now` is the
seconds value read from CLOCK_MONOTONIC.  The float comparison
`minutes > 1.0` with `minutes = (now - spike_sec_prev) / bc_reset_min` is
modelled as `bc_reset_min < now - spike_sec_prev` (exact for the reachable
values, where `bc_reset_min` is a positive integer-valued float), and
likewise `minutes < 1.0` as `now - spike_sec_prev < bc_reset_min`.
`(int)((float) burst_count / minutes)` is modelled as
`burst_count * bc_reset_min / (now - spike_sec_prev)`.  The clock-read
failure path of the C function (perror and return -1, no state change) is
not modelled: the clock read is assumed to succeed. -/
def update_burst_count (real gate : Bool) (now : Int) (st : SpikeState) : SpikeState :=
  if st.spike_sec_prev = 0 then
    { st with spike_sec_prev := now }
  else
    let delta : Int := now - st.spike_sec_prev
    let cs : Int × Int :=
      if real ∧ gate then (st.burst_count + 1, now)
      else if st.bc_reset_min < delta ∨ MAX_BURST_COUNT < st.burst_count then (0, now)
      else (st.burst_count, st.spike_sec_prev)
    let pm : Int :=
      if delta < st.bc_reset_min then cs.1
      else if st.bc_reset_min < delta then cs.1 * st.bc_reset_min / delta
      else st.burst_rate_per_min
    { st with burst_count := cs.1, spike_sec_prev := cs.2, burst_rate_per_min := pm }

/-- get_spike_rate from spike_mgmt.c:
spike_pct = total_spike_time * 100 / MAX_TRACKED_SPIKE_TIME, clamped to 100. -/
def get_spike_rate (st : SpikeState) : Int :=
  let spike_pct : Int := st.total_spike_time * 100 / MAX_TRACKED_SPIKE_TIME
  if 100 < spike_pct then 100 else spike_pct

/-- add_spike_time from spike_mgmt.c.  `demote` models the extern
`state_demote`; `gate` and `now` are passed down to update_burst_count.
The final two record fields are update_spike_rate_avg inlined. -/
def add_spike_time (d now : Int) (demote gate : Bool) (st : SpikeState) : SpikeState :=
  let st1 :=
    if st.total_spike_time < MAX_TRACKED_SPIKE_TIME then
      { st with total_spike_time := st.total_spike_time + d }
    else st
  let st2 :=
    if ¬ st1.spike_burst_flag then
      { st1 with spike_burst_flag := true }
    else if demote ∧ ¬ st1.once_flag then
      let st' := update_burst_count true gate now st1
      { st' with once_flag := true }
    else st1
  let sr := get_spike_rate st2
  { st2 with spike_rate_total := st2.spike_rate_total + sr,
             spike_rate_samples := st2.spike_rate_samples + 1 }

/-- add_non_spike_time from spike_mgmt.c.  On the falling edge of a burst the
average spike rate `spike_rate_total / spike_rate_samples` is taken (integer
division in C, assigned to a float), the burst is counted if it never was,
and `bc_reset_min` is re-tuned by SPIKE_TIME_BIAS; otherwise the burst-count
bookkeeping is refreshed and `once_flag` cleared. -/
def add_non_spike_time (d now : Int) (gate : Bool) (st : SpikeState) : SpikeState :=
  let t1 := if 0 < st.total_spike_time then st.total_spike_time - d else st.total_spike_time
  let t2 := if t1 < 0 then 0 else t1
  let st1 := { st with total_spike_time := t2 }
  if get_spike_rate st1 = 0 ∧ st1.spike_burst_flag then
    let avg := st1.spike_rate_total / st1.spike_rate_samples
    let st2 := { st1 with spike_burst_flag := false }
    let st3 := if ¬ st2.once_flag then update_burst_count true gate now st2 else st2
    { st3 with bc_reset_min := 60 - (100 - avg) * st3.bc_reset_min / (2 * 100),
               spike_rate_total := 0, spike_rate_samples := 0, once_flag := false }
  else
    let st3 := update_burst_count false gate now st1
    { st3 with once_flag := false }

/-- strikeout_once from spike_mgmt.c, as a function of the stored
`strike_count` (second argument), returning the new count (which is also the
function's return value). -/
def strikeout_once (n count : Int) : Int :=
  let c1 := if count = 0 then n else count - 1
  if c1 < 0 then 0 else c1

/-- Iterated strikeout_once: `strikeout_iter n k` is the value of
`strike_count` after `k` successive calls `strikeout_once (n)` starting from
the initial value 0; for `k ≥ 1` it is also the return value of the k-th
call. -/
def strikeout_iter (n : Int) : Nat → Int
  | 0 => 0
  | k + 1 => strikeout_once n (strikeout_iter n k)

/-- One externally-classified sample fed to the detector: either a spike or a
non-spike, with its duration, the clock second at which it is processed, and
the external policy inputs at that moment. -/
inductive SpikeEv
  | spike (d now : Int) (demote gate : Bool)
  | nonspike (d now : Int) (gate : Bool)
  deriving Repr, DecidableEq

/-- Dispatch one sample to the corresponding spike_mgmt.c entry point. -/
def spikeStep (st : SpikeState) (e : SpikeEv) : SpikeState :=
  match e with
  | .spike d now demote gate => add_spike_time d now demote gate st
  | .nonspike d now gate => add_non_spike_time d now gate st

/-- Run the detector over a sequence of samples. -/
def spikeRun (st : SpikeState) (evs : List SpikeEv) : SpikeState :=
  evs.foldl spikeStep st

/-- Durations are admissible for the C8 claim: non-negative, and spike
durations bounded by D. -/
def spike_dur_ok (D : Int) : SpikeEv → Bool
  | .spike d _ _ _ => decide (0 ≤ d) && decide (d ≤ D)
  | .nonspike d _ _ => decide (0 ≤ d)

/-- Failing input for claim C7: a quiescent detector (no burst in progress;
`spike_sec_prev` has been seeded by one earlier idle sample), then two spikes
and non-spikes repeated until the spike rate reaches 0, with `state_demote`
set and the actuation-state gate open throughout. -/
def c7_events : List SpikeEv :=
  [.nonspike 0 5 true, .spike 300 6 true true, .spike 300 6 true true,
   .nonspike 300 7 true, .nonspike 300 8 true]

/-- Same scenario, except that the burst is torn down by a single
add_non_spike_time call. -/
def c7_events_single : List SpikeEv :=
  [.nonspike 0 5 true, .spike 300 6 true true, .spike 300 6 true true,
   .nonspike 600 7 true]

/-! ## Utilization monitor (src/lpmd_util.c)

The /proc/stat counters are C unsigned long long; their arithmetic is
carried out modulo 2^64. -/

/-- Modulus of C unsigned long long arithmetic. -/
def U64 : Nat := 2 ^ 64

/-- Unsigned 64-bit addition. -/
def add64 (a b : Nat) : Nat := (a + b) % U64

/-- Unsigned 64-bit subtraction (wraps around on regression). -/
def sub64 (a b : Nat) : Nat := (a % U64 + U64 - b % U64) % U64

/-- Unsigned 64-bit multiplication. -/
def mul64 (a b : Nat) : Nat := a * b % U64

/-- STAT_IDLE slot of enum type_stat in lpmd_util.c. -/
def STAT_IDLE : Nat := 4

/-- STAT_IOWAIT slot of enum type_stat in lpmd_util.c. -/
def STAT_IOWAIT : Nat := 5

/-- The counter slots STAT_USER .. STAT_GUEST_NICE iterated by
calculate_busypct (STAT_CPU = 0 is the cpu-id tag and is skipped). -/
def statIdxs : List Nat := [1, 2, 3, 4, 5, 6, 7, 8, 9, 10]

/-- struct proc_stat_info from lpmd_util.c: the `valid` flag and the counter
array (indexed by enum type_stat slot). -/
structure ProcStatInfo where
  valid : Int
  stat : Nat → Nat

/-- Total counter delta of calculate_busypct: the running `total`
accumulator, an unsigned long long. -/
def proc_stat_total (cur prev : ProcStatInfo) : Nat :=
  statIdxs.foldl (fun acc i => add64 acc (sub64 (cur.stat i) (prev.stat i))) 0

/-- Busy counter delta of calculate_busypct: the running `busy` accumulator,
skipping STAT_IDLE and STAT_IOWAIT ("align with the top utility logic"). -/
def proc_stat_busy (cur prev : ProcStatInfo) : Nat :=
  statIdxs.foldl
    (fun acc i =>
      if i ≠ STAT_IDLE ∧ i ≠ STAT_IOWAIT then
        add64 acc (sub64 (cur.stat i) (prev.stat i))
      else acc) 0

/-- calculate_busypct from lpmd_util.c: busy * 10000 / total in unsigned
long long arithmetic when total is nonzero, else 0.  The C function then
truncates the quotient to int; that truncation is the identity for all
values below 2^31, which covers every value evaluated by a theorem in this
file. -/
def calculate_busypct (cur prev : ProcStatInfo) : Nat :=
  if proc_stat_total cur prev ≠ 0 then
    mul64 (proc_stat_busy cur prev) 10000 / proc_stat_total cur prev
  else 0

/-- The busy_cpu aggregation loop of parse_proc_stat (lpmd_util.c, the loop
`for (i = 1; i <= get_max_online_cpu (); i++)` after the /proc/stat lines
have been parsed into the snapshots): starting from 0, fold over the slots
1 .. m where `m = get_max_online_cpu ()`, taking the running maximum of
calculate_busypct over slots marked valid.  Modelled from the spec for the
parts outside the given sources: get_max_online_cpu and the slot layout,
which per spec section 3 puts the aggregate "system" entry at index
max_cpu + 1, so slots 0 .. m-1 hold the per-CPU lines cpu0 .. cpu(m-1)
(parse_proc_stat routes line cpuN to slot N) and slot m holds the aggregate
system line. -/
def parse_proc_stat_busy_cpu (cur prev : Nat → ProcStatInfo) (m : Nat) : Nat :=
  (List.range' 1 m).foldl
    (fun busy_cpu i =>
      if (cur i).valid ≠ 0 then
        (let val := calculate_busypct (cur i) (prev i)
         if busy_cpu < val then val else busy_cpu)
      else busy_cpu) 0

/-- Maximum of calculate_busypct over the valid slots among `idxs`. -/
def max_valid_busypct (cur prev : Nat → ProcStatInfo) (idxs : List Nat) : Nat :=
  ((idxs.filter fun i => decide ((cur i).valid ≠ 0)).map
    fun i => calculate_busypct (cur i) (prev i)).foldl max 0

/-- Following the words of claim C1 (not the source): the maximum busy
percentage over the per-CPU lines (slots 0 .. m-1) marked valid this round. -/
def spec_busy_cpu_max (cur prev : Nat → ProcStatInfo) (m : Nat) : Nat :=
  max_valid_busypct cur prev (List.range m)

/-- Previous-generation snapshot for the C1 counterexample: all counters
zero. -/
def c1_prev : Nat → ProcStatInfo := fun _ => ⟨1, fun _ => 0⟩

/-- Current-generation snapshot for the C1 counterexample, with
m = get_max_online_cpu () = 2 (CPUs 0 and 1, aggregate at slot 2): cpu0
fully busy (100 user ticks), cpu1 fully idle (100 idle ticks), aggregate
line = their sum. -/
def c1_cur : Nat → ProcStatInfo := fun i =>
  if i = 0 then ⟨1, fun j => if j = 1 then 100 else 0⟩
  else if i = 1 then ⟨1, fun j => if j = 4 then 100 else 0⟩
  else ⟨1, fun j => if j = 1 then 100 else if j = 4 then 100 else 0⟩

/-- Current snapshot for the C3 counterexample: 5 new user ticks. -/
def c3_cur : ProcStatInfo := ⟨1, fun j => if j = 1 then 5 else 0⟩

/-- Previous snapshot for the C3 counterexample: one idle tick that the
current snapshot no longer has (a counter regression, as happens when a
/proc/stat field fails to parse and is left at its zeroed value). -/
def c3_prev : ProcStatInfo := ⟨1, fun j => if j = 4 then 1 else 0⟩

/-- A snapshot equal to itself across generations (zero total delta),
for the C3 witness. -/
def c3_flat : ProcStatInfo := ⟨1, fun _ => 7⟩

/-! ### Simple-mode hysteresis filter (util_should_proceed) -/

/-- enum system_status from lpmd_util.c. -/
inductive SysStatus
  | sys_idle
  | sys_normal
  | sys_overload
  | sys_unknown
  deriving Repr, DecidableEq

/-- DECAY_PERIOD from lpmd_util.c. -/
def DECAY_PERIOD : Nat := 5

/-- util_should_proceed from lpmd_util.c, as a function of the elapsed times
cur_in / cur_out (milliseconds since the last out/in transition, computed in
the C code from CLOCK_MONOTONIC) and of the persistent unsigned longs
avg_in, avg_out, util_in_hyst, util_out_hyst, util_in_min, util_out_min.
Returns (proceed, new avg_in, new avg_out). -/
def util_should_proceed (status : SysStatus)
    (avg_in avg_out cur_in cur_out : Nat)
    (util_in_hyst util_out_hyst util_in_min util_out_min : Nat) :
    Bool × Nat × Nat :=
  if util_out_hyst = 0 ∧ util_in_hyst = 0 then (true, avg_in, avg_out)
  else
    match status with
    | .sys_idle =>
        let ao := avg_out * (DECAY_PERIOD - 1) / DECAY_PERIOD + cur_out / DECAY_PERIOD
        if util_in_hyst ≤ avg_in ∧ util_out_min ≤ cur_out then (true, avg_in, ao)
        else (false, avg_in * (DECAY_PERIOD + 1) / DECAY_PERIOD, ao)
    | .sys_overload =>
        let ai := avg_in * (DECAY_PERIOD - 1) / DECAY_PERIOD + cur_in / DECAY_PERIOD
        if util_out_hyst ≤ avg_out ∧ util_in_min ≤ cur_in then (true, ai, avg_out)
        else (false, ai, avg_out * (DECAY_PERIOD + 1) / DECAY_PERIOD)
    | _ => (false, avg_in, avg_out)

/-! ### Config-state matcher (state_match / process_next_config_state) and
per-state polling interval (enter_state) -/

/-- lpmd_config_state_t, restricted to the fields read or written by
state_match, enter_state and util_init.  All fields are C ints.  The
threshold fields hold the values after util_init has scaled them by 100
(basis points); note that util_init scales entry_system_load_thres,
enter_cpu_load_thres, exit_cpu_load_thres and enter_gfx_load_thres but not
exit_system_load_hyst.  Actuator fields (epp, epb, itmt_state, active_cpus,
irq_migrate, id, name) play no part in any claim and are omitted. -/
structure LpmdConfigState where
  valid : Int
  wlt_type : Int
  entry_system_load_thres : Int
  enter_cpu_load_thres : Int
  enter_gfx_load_thres : Int
  exit_system_load_hyst : Int
  entry_load_sys : Int
  entry_load_cpu : Int
  min_poll_interval : Int
  max_poll_interval : Int
  poll_interval_increment : Int
  deriving Repr, DecidableEq

/-- state_match from lpmd_util.c.  `is_cur` models the pointer comparison
`state == current_state`.  A true result is "match", false is the
`unmatch` label. -/
def state_match (s : LpmdConfigState) (is_cur : Bool) (bsys bcpu bgfx wlt : Int) : Bool :=
  if s.valid = 0 then false
  else if s.wlt_type ≠ -1 ∧ s.wlt_type ≠ wlt then false
  else if s.wlt_type ≠ -1 ∧ s.enter_gfx_load_thres = 0 then true
  else if s.enter_cpu_load_thres = 0 ∧ s.entry_system_load_thres = 0 ∧
          s.enter_gfx_load_thres = 0 then true
  else if s.enter_cpu_load_thres ≠ 0 ∧ s.enter_cpu_load_thres < bcpu then false
  else if s.enter_gfx_load_thres ≠ 0 ∧ bgfx ≠ -1 ∧ s.enter_gfx_load_thres < bgfx then false
  else if s.entry_system_load_thres ≠ 0 ∧ s.entry_system_load_thres < bsys then
    (if s.exit_system_load_hyst = 0 ∨ is_cur = false then false
     else if s.entry_load_sys + s.exit_system_load_hyst < bsys ∨
             s.entry_system_load_thres + s.exit_system_load_hyst < bsys then false
     else true)
  else true

/-- The scan loop of process_next_config_state (lpmd_util.c): try the states
in configuration order starting at index `i`, and return the index and state
of the first one accepted by state_match, if any.  `cur` is the index of
current_state in the configuration array (`none` when current_state is
NULL); the pointer comparison `state == current_state` of state_match
becomes an index comparison. -/
def process_next_config_state_scan (cur : Option Nat) (bsys bcpu bgfx wlt : Int) :
    Nat → List LpmdConfigState → Option (Nat × LpmdConfigState)
  | _, [] => none
  | i, s :: rest =>
      if state_match s (decide (cur = some i)) bsys bcpu bgfx wlt then some (i, s)
      else process_next_config_state_scan cur bsys bcpu bgfx wlt (i + 1) rest

/-- DEFAULT_POLL_RATE_MS from lpmd_util.c. -/
def DEFAULT_POLL_RATE_MS : Int := 1000

/-- The polling-interval adjustment of enter_state (lpmd_util.c) when the
matched state is the current state: add a positive fixed increment, or, when
the increment is the adaptive sentinel -1, apply the adaptive formula
max_poll_interval * (10000 - bcpu) / 10000 floored to a multiple of 100. -/
def enter_state_poll_adjust (s : LpmdConfigState) (interval bcpu : Int) : Int :=
  let i1 := if 0 < s.poll_interval_increment then interval + s.poll_interval_increment
            else interval
  if s.poll_interval_increment = -1 then
    s.max_poll_interval * (10000 - bcpu) / 10000 / 100 * 100
  else i1

/-- The interval returned by enter_state (lpmd_util.c) when
state == current_state: the adjustment above, then clamped to
min_poll_interval (if nonzero) and max_poll_interval (if nonzero).
`interval` is the function's static accumulator. -/
def enter_state_same_interval (s : LpmdConfigState) (interval bcpu : Int) : Int :=
  let i2 := enter_state_poll_adjust s interval bcpu
  let i3 := if s.min_poll_interval ≠ 0 ∧ i2 < s.min_poll_interval then s.min_poll_interval
            else i2
  if s.max_poll_interval ≠ 0 ∧ s.max_poll_interval < i3 then s.max_poll_interval else i3

/-- Concrete state for the C2 counterexample and witness: the stored values
named by the claim, entry_system_load_thres = 5000, exit_system_load_hyst =
1000, entry_load_sys = 4500, with no cpu/gfx thresholds and no workload-type
hint. -/
def c2_state : LpmdConfigState :=
  { valid := 1, wlt_type := -1, entry_system_load_thres := 5000,
    enter_cpu_load_thres := 0, enter_gfx_load_thres := 0,
    exit_system_load_hyst := 1000, entry_load_sys := 4500, entry_load_cpu := 0,
    min_poll_interval := 100, max_poll_interval := 1000,
    poll_interval_increment := -1 }

/-- A state that never matches (marked invalid by util_init), used as the
first entry of the C5 witness list. -/
def c5_state_a : LpmdConfigState :=
  { valid := 0, wlt_type := -1, entry_system_load_thres := 0,
    enter_cpu_load_thres := 0, enter_gfx_load_thres := 0,
    exit_system_load_hyst := 0, entry_load_sys := 0, entry_load_cpu := 0,
    min_poll_interval := 0, max_poll_interval := 0,
    poll_interval_increment := 0 }

/-- A catch-all state (valid, no thresholds): matches unconditionally; the
second entry of the C5 witness list. -/
def c5_state_b : LpmdConfigState :=
  { valid := 1, wlt_type := -1, entry_system_load_thres := 0,
    enter_cpu_load_thres := 0, enter_gfx_load_thres := 0,
    exit_system_load_hyst := 0, entry_load_sys := 0, entry_load_cpu := 0,
    min_poll_interval := 100, max_poll_interval := 1000,
    poll_interval_increment := -1 }

/-- A third state that would also match, to show the scan never reaches it;
the third entry of the C5 witness list. -/
def c5_state_c : LpmdConfigState :=
  { valid := 1, wlt_type := -1, entry_system_load_thres := 9900,
    enter_cpu_load_thres := 0, enter_gfx_load_thres := 0,
    exit_system_load_hyst := 0, entry_load_sys := 0, entry_load_cpu := 0,
    min_poll_interval := 100, max_poll_interval := 1000,
    poll_interval_increment := -1 }

/-- Concrete state for the C6 counterexample: a positive fixed increment of
150 ms on a state clamped to [100, 2000]. -/
def c6_state : LpmdConfigState :=
  { valid := 1, wlt_type := -1, entry_system_load_thres := 0,
    enter_cpu_load_thres := 0, enter_gfx_load_thres := 0,
    exit_system_load_hyst := 0, entry_load_sys := 0, entry_load_cpu := 0,
    min_poll_interval := 100, max_poll_interval := 2000,
    poll_interval_increment := 150 }

/-- Concrete state for the C6 witness: adaptive increment, clamps 100 and
1000 (the defaults util_init assigns). -/
def c6_state_adaptive : LpmdConfigState :=
  { valid := 1, wlt_type := -1, entry_system_load_thres := 0,
    enter_cpu_load_thres := 0, enter_gfx_load_thres := 0,
    exit_system_load_hyst := 0, entry_load_sys := 0, entry_load_cpu := 0,
    min_poll_interval := 100, max_poll_interval := 1000,
    poll_interval_increment := -1 }

/-! ### Helper lemmas: which fields each spike_mgmt.c helper touches -/

theorem update_burst_count_total (r g : Bool) (n : Int) (st : SpikeState) :
    (update_burst_count r g n st).total_spike_time = st.total_spike_time := by
  unfold update_burst_count; split <;> rfl

theorem update_burst_count_flag (r g : Bool) (n : Int) (st : SpikeState) :
    (update_burst_count r g n st).spike_burst_flag = st.spike_burst_flag := by
  unfold update_burst_count; split <;> rfl

theorem update_burst_count_samples (r g : Bool) (n : Int) (st : SpikeState) :
    (update_burst_count r g n st).spike_rate_samples = st.spike_rate_samples := by
  unfold update_burst_count; split <;> rfl

theorem update_burst_count_rate_total (r g : Bool) (n : Int) (st : SpikeState) :
    (update_burst_count r g n st).spike_rate_total = st.spike_rate_total := by
  unfold update_burst_count; split <;> rfl

theorem add_spike_time_total (d now : Int) (dm g : Bool) (st : SpikeState) :
    (add_spike_time d now dm g st).total_spike_time =
      if st.total_spike_time < MAX_TRACKED_SPIKE_TIME then st.total_spike_time + d
      else st.total_spike_time := by
  unfold add_spike_time
  split_ifs <;> simp_all [update_burst_count_total] <;> split_ifs <;>
    simp_all [update_burst_count_total]

theorem add_spike_time_samples (d now : Int) (dm g : Bool) (st : SpikeState) :
    (add_spike_time d now dm g st).spike_rate_samples = st.spike_rate_samples + 1 := by
  unfold add_spike_time
  split_ifs <;> simp_all [update_burst_count_samples] <;> split_ifs <;>
    simp_all [update_burst_count_samples]

theorem add_non_spike_time_total (d now : Int) (g : Bool) (st : SpikeState) :
    (add_non_spike_time d now g st).total_spike_time =
      if (if 0 < st.total_spike_time then st.total_spike_time - d else st.total_spike_time) < 0
      then 0
      else (if 0 < st.total_spike_time then st.total_spike_time - d else st.total_spike_time) := by
  unfold add_non_spike_time
  split_ifs <;> simp_all [update_burst_count_total] <;> split_ifs <;>
    simp_all [update_burst_count_total]

theorem add_non_spike_time_flag_samples (d now : Int) (g : Bool) (st : SpikeState) :
    ((add_non_spike_time d now g st).spike_burst_flag = st.spike_burst_flag ∧
      (add_non_spike_time d now g st).spike_rate_samples = st.spike_rate_samples) ∨
    ((add_non_spike_time d now g st).spike_burst_flag = false ∧
      (add_non_spike_time d now g st).spike_rate_samples = 0) := by
  unfold add_non_spike_time
  split_ifs <;> simp_all [update_burst_count_flag, update_burst_count_samples] <;>
    split_ifs <;> simp_all [update_burst_count_flag, update_burst_count_samples]

/-- Reachability by induction over a sample sequence: any property of the
detector state preserved by every step holds after every run. -/
theorem spikeRun_invariant (P : SpikeState → Prop) (Q : SpikeEv → Prop)
    (hstep : ∀ st e, P st → Q e → P (spikeStep st e)) :
    ∀ (evs : List SpikeEv) (st : SpikeState), P st → (∀ e ∈ evs, Q e) →
      P (spikeRun st evs) := by
  intro evs
  induction evs with
  | nil => intro st h _; exact h
  | cons e rest ih =>
      intro st h hq
      exact ih (spikeStep st e) (hstep st e h (hq e (by simp)))
        (fun x hx => hq x (by simp [hx]))

/-! ### Claims about the spike burst detector -/

/-- C7: evaluation of the code at the failing input.  Feeding add_spike_time
twice and then add_non_spike_time repeatedly until the spike rate reaches 0
increments burst_count TWICE, not once: the intermediate non-spike call
resets once_flag, so the falling edge counts the burst again.  The
bc_reset_min update does follow the claimed formula
60 - (100 - avg) * bc_reset_min / 200 with avg = spike_rate_total /
spike_rate_samples = 90 / 2 = 45, giving 60 - 55 * 90 / 200 = 36.  When the
teardown is a single call (no intermediate non-spike), burst_count is
incremented exactly once, as the claim and the once_flag guard intend. -/
theorem c7_burst_count_evaluation :
    (spikeRun initSpikeState c7_events).burst_count = 2 ∧
    (spikeRun initSpikeState c7_events).bc_reset_min = 36 ∧
    get_spike_rate (spikeRun initSpikeState c7_events) = 0 ∧
    (spikeRun initSpikeState c7_events_single).burst_count = 1 ∧
    (spikeRun initSpikeState c7_events_single).bc_reset_min = 36 := by
  decide

/-- C8 counterexample: a single add_spike_time call with duration 2000 on the
initial state leaves total_spike_time = 2000, above MAX_TRACKED_SPIKE_TIME:
the guard only checks the accumulator before adding, it does not cap the
sum. -/
theorem c8_counterexample :
    (spikeRun initSpikeState [.spike 2000 1 false false]).total_spike_time = 2000 ∧
    ¬ ((spikeRun initSpikeState [.spike 2000 1 false false]).total_spike_time ≤
        MAX_TRACKED_SPIKE_TIME) := by
  decide

/-- C8 (amended): for every sample sequence whose durations are non-negative
and whose spike durations are at most D, after each call
0 ≤ total_spike_time < MAX_TRACKED_SPIKE_TIME + D: the accumulator stays
non-negative but can overshoot the cap by up to one spike duration, because
add_spike_time only checks the cap before adding.  (Applied to every prefix
of a sequence, this bounds the accumulator after each call.) -/
theorem c8_total_spike_time_bounds (D : Int) (hD : 0 ≤ D) (evs : List SpikeEv)
    (hok : ∀ e ∈ evs, spike_dur_ok D e = true) :
    0 ≤ (spikeRun initSpikeState evs).total_spike_time ∧
    (spikeRun initSpikeState evs).total_spike_time < MAX_TRACKED_SPIKE_TIME + D := by
  refine spikeRun_invariant
    (fun st => 0 ≤ st.total_spike_time ∧
      st.total_spike_time < MAX_TRACKED_SPIKE_TIME + D)
    (fun e => spike_dur_ok D e = true) ?_ evs initSpikeState ?_ hok
  · intro st e hP hQ
    cases e with
    | spike d now dm g =>
        simp only [spike_dur_ok, Bool.and_eq_true, decide_eq_true_eq] at hQ
        simp only [spikeStep, add_spike_time_total]
        unfold MAX_TRACKED_SPIKE_TIME at *
        split_ifs <;> omega
    | nonspike d now g =>
        simp only [spike_dur_ok, decide_eq_true_eq] at hQ
        simp only [spikeStep, add_non_spike_time_total]
        unfold MAX_TRACKED_SPIKE_TIME at *
        split_ifs <;> omega
  · refine ⟨le_refl 0, ?_⟩
    simp only [initSpikeState, MAX_TRACKED_SPIKE_TIME]
    omega

/-- C8 witness: the amended bound evaluated on a concrete admissible
sequence with D = 100. -/
theorem c8_witness :
    (0 : Int) ≤ 100 ∧
    (∀ e ∈ [SpikeEv.spike 50 1 false false, SpikeEv.nonspike 30 2 false],
      spike_dur_ok 100 e = true) ∧
    (0 ≤ (spikeRun initSpikeState
        [SpikeEv.spike 50 1 false false, SpikeEv.nonspike 30 2 false]).total_spike_time ∧
      (spikeRun initSpikeState
        [SpikeEv.spike 50 1 false false, SpikeEv.nonspike 30 2 false]).total_spike_time <
        MAX_TRACKED_SPIKE_TIME + 100) :=
  ⟨by decide, by decide,
    c8_total_spike_time_bounds 100 (by decide)
      [SpikeEv.spike 50 1 false false, SpikeEv.nonspike 30 2 false] (by decide)⟩

/-- C9 counterexample: after strikeout_once (5) has counted down to 0 (the
sixth call), the seventh call does NOT hold at 0: the code treats a zero
strike_count as "first call" and re-seeds the countdown at n, returning 5. -/
theorem c9_counterexample :
    strikeout_iter 5 7 = 5 ∧ strikeout_iter 5 7 ≠ 0 := by
  decide

/-- C9 (amended): strikeout_once (5) returns, over seven successive calls
starting from a zero strike_count, the sequence 5, 4, 3, 2, 1, 0, 5: any
call made while the remaining count is zero (including the first) seeds the
countdown at n and returns it; other calls decrement by 1; after the count
reaches 0 the next call re-seeds at n instead of holding at 0. -/
theorem c9_strikeout_sequence :
    strikeout_iter 5 1 = 5 ∧ strikeout_iter 5 2 = 4 ∧ strikeout_iter 5 3 = 3 ∧
    strikeout_iter 5 4 = 2 ∧ strikeout_iter 5 5 = 1 ∧ strikeout_iter 5 6 = 0 ∧
    strikeout_iter 5 7 = 5 := by
  decide

/-- C10: in every state reachable from the initial detector state by
add_spike_time / add_non_spike_time calls, a set spike_burst_flag implies
spike_rate_samples ≥ 1.  Consequently the falling-edge branch of
add_non_spike_time (which divides spike_rate_total by spike_rate_samples
while the flag is still set) never divides by zero: every add_spike_time
call ends by incrementing spike_rate_samples, and the only code that resets
spike_rate_samples to 0 also clears the flag. -/
theorem c10_flag_implies_samples (evs : List SpikeEv)
    (hflag : (spikeRun initSpikeState evs).spike_burst_flag = true) :
    1 ≤ (spikeRun initSpikeState evs).spike_rate_samples := by
  have h := spikeRun_invariant
    (fun st => 0 ≤ st.spike_rate_samples ∧
      (st.spike_burst_flag = true → 1 ≤ st.spike_rate_samples))
    (fun _ => True) ?_ evs initSpikeState (by constructor <;> simp [initSpikeState])
    (fun _ _ => trivial)
  · exact h.2 hflag
  · intro st e hP _
    obtain ⟨hP1, hP2⟩ := hP
    cases e with
    | spike d now dm g =>
        simp only [spikeStep]
        rw [add_spike_time_samples]
        exact ⟨by omega, fun _ => by omega⟩
    | nonspike d now g =>
        rcases add_non_spike_time_flag_samples d now g st with ⟨h1, h2⟩ | ⟨h1, h2⟩
        · simp only [spikeStep]
          rw [h1, h2]
          exact ⟨hP1, hP2⟩
        · simp only [spikeStep]
          rw [h1, h2]
          exact ⟨le_refl 0, fun hf => (Bool.false_ne_true hf).elim⟩

/-- C10 witness: a single spike from the initial state sets the flag and
establishes spike_rate_samples = 1. -/
theorem c10_witness :
    (spikeRun initSpikeState [SpikeEv.spike 300 6 false true]).spike_burst_flag = true ∧
    1 ≤ (spikeRun initSpikeState [SpikeEv.spike 300 6 false true]).spike_rate_samples :=
  ⟨by decide, c10_flag_implies_samples [SpikeEv.spike 300 6 false true] (by decide)⟩

/-! ### Claims about the counter snapshot store -/

/-- The update step of the busy_cpu loop is a maximum. -/
theorem ite_lt_max (a v : Nat) : (if a < v then v else a) = max a v := by
  rcases Nat.lt_or_ge a v with hv | hv
  · rw [if_pos hv, Nat.max_eq_right (Nat.le_of_lt hv)]
  · rw [if_neg (Nat.not_lt.mpr hv), Nat.max_eq_left hv]

/-- The running-maximum fold of parse_proc_stat equals a maximum over the
valid slots. -/
theorem foldl_busy_cpu_eq_max (cur prev : Nat → ProcStatInfo) :
    ∀ (l : List Nat) (a : Nat),
      l.foldl
        (fun busy_cpu i =>
          if (cur i).valid ≠ 0 then
            (let val := calculate_busypct (cur i) (prev i)
             if busy_cpu < val then val else busy_cpu)
          else busy_cpu) a
      = ((l.filter fun i => decide ((cur i).valid ≠ 0)).map
          fun i => calculate_busypct (cur i) (prev i)).foldl max a := by
  intro l
  induction l with
  | nil => intro a; rfl
  | cons i t ih =>
      intro a
      by_cases h : (cur i).valid ≠ 0
      · simp only [List.foldl_cons, List.filter_cons, decide_eq_true h, if_pos h,
          if_true, List.map_cons]
        rw [ih, ite_lt_max]
      · simp only [List.foldl_cons, List.filter_cons, decide_eq_false h, if_neg h,
          if_false]
        exact ih a

/-- C1 counterexample: with two online CPUs (slots 0 and 1, aggregate system
line at slot 2, m = get_max_online_cpu () = 2), cpu0 fully busy and cpu1
fully idle, parse_proc_stat reports busy_cpu = 5000 (the aggregate line's
busy percentage, included in its loop), while the maximum over the valid
per-CPU lines is 10000 (cpu0, which slot the loop `for (i = 1; ...)` never
visits). -/
theorem c1_counterexample :
    parse_proc_stat_busy_cpu c1_cur c1_prev 2 = 5000 ∧
    spec_busy_cpu_max c1_cur c1_prev 2 = 10000 ∧
    parse_proc_stat_busy_cpu c1_cur c1_prev 2 ≠ spec_busy_cpu_max c1_cur c1_prev 2 := by
  decide

/-- C1 (amended): the busy_cpu reported by parse_proc_stat equals the
maximum of the busy percentages of the valid entries at slots
1 .. get_max_online_cpu () — i.e. per-CPU lines cpu1, cpu2, ... plus the
aggregate system line; the per-CPU line cpu0 (slot 0) is excluded.  Slots
not marked valid contribute nothing. -/
theorem c1_busy_cpu_slot_max (cur prev : Nat → ProcStatInfo) (m : Nat) :
    parse_proc_stat_busy_cpu cur prev m = max_valid_busypct cur prev (List.range' 1 m) := by
  unfold parse_proc_stat_busy_cpu max_valid_busypct
  exact foldl_busy_cpu_eq_max cur prev (List.range' 1 m) 0

/-- C3 counterexample: a snapshot pair in which the idle counter decreased
by 1 (and the user counter grew by 5).  The unsigned deltas wrap around
2^64, the total delta becomes 4, and calculate_busypct returns
5 * 10000 / 4 = 12500 — not the claimed 0, and indeed above 100 percent. -/
theorem c3_counterexample :
    c3_cur.stat STAT_IDLE < c3_prev.stat STAT_IDLE ∧
    calculate_busypct c3_cur c3_prev = 12500 ∧
    calculate_busypct c3_cur c3_prev ≠ 0 := by
  decide

/-- Unsigned 64-bit subtraction is plain subtraction when no regression
occurs and the counters fit. -/
theorem sub64_of_le (a b : Nat) (hba : b ≤ a) (ha : a < U64) : sub64 a b = a - b := by
  unfold sub64 U64 at *
  omega

/-- Unsigned 64-bit addition is plain addition below the modulus. -/
theorem add64_of_lt (a b : Nat) (h : a + b < U64) : add64 a b = a + b :=
  Nat.mod_eq_of_lt h

set_option maxHeartbeats 2000000 in
/-- C3 (amended): if the total counter delta (computed modulo 2^64) is zero,
calculate_busypct returns 0 and no division by zero occurs.  A counter
regression, however, is not detected: the deltas simply wrap modulo 2^64
(see the counterexample).  When the counters are monotone and within a
realistic magnitude (here 2^40, about 348 years of 100Hz ticks), no
wraparound occurs and the result is a genuine percentage, at most 10000. -/
theorem c3_busypct_zero_total (cur prev : ProcStatInfo) :
    (proc_stat_total cur prev = 0 → calculate_busypct cur prev = 0) ∧
    ((∀ i ∈ statIdxs, prev.stat i ≤ cur.stat i ∧ cur.stat i ≤ 2 ^ 40) →
      calculate_busypct cur prev ≤ 10000) := by
  constructor
  · intro h
    simp [calculate_busypct, h]
  · intro h
    have h1 := h 1 (by simp [statIdxs])
    have h2 := h 2 (by simp [statIdxs])
    have h3 := h 3 (by simp [statIdxs])
    have h4 := h 4 (by simp [statIdxs])
    have h5 := h 5 (by simp [statIdxs])
    have h6 := h 6 (by simp [statIdxs])
    have h7 := h 7 (by simp [statIdxs])
    have h8 := h 8 (by simp [statIdxs])
    have h9 := h 9 (by simp [statIdxs])
    have h10 := h 10 (by simp [statIdxs])
    have hu : (2 : Nat) ^ 40 < U64 := by unfold U64; omega
    have e1 := sub64_of_le (cur.stat 1) (prev.stat 1) h1.1 (by omega)
    have e2 := sub64_of_le (cur.stat 2) (prev.stat 2) h2.1 (by omega)
    have e3 := sub64_of_le (cur.stat 3) (prev.stat 3) h3.1 (by omega)
    have e4 := sub64_of_le (cur.stat 4) (prev.stat 4) h4.1 (by omega)
    have e5 := sub64_of_le (cur.stat 5) (prev.stat 5) h5.1 (by omega)
    have e6 := sub64_of_le (cur.stat 6) (prev.stat 6) h6.1 (by omega)
    have e7 := sub64_of_le (cur.stat 7) (prev.stat 7) h7.1 (by omega)
    have e8 := sub64_of_le (cur.stat 8) (prev.stat 8) h8.1 (by omega)
    have e9 := sub64_of_le (cur.stat 9) (prev.stat 9) h9.1 (by omega)
    have e10 := sub64_of_le (cur.stat 10) (prev.stat 10) h10.1 (by omega)
    have hT : proc_stat_total cur prev =
        (cur.stat 1 - prev.stat 1) + (cur.stat 2 - prev.stat 2) +
        (cur.stat 3 - prev.stat 3) + (cur.stat 4 - prev.stat 4) +
        (cur.stat 5 - prev.stat 5) + (cur.stat 6 - prev.stat 6) +
        (cur.stat 7 - prev.stat 7) + (cur.stat 8 - prev.stat 8) +
        (cur.stat 9 - prev.stat 9) + (cur.stat 10 - prev.stat 10) := by
      show add64 (add64 (add64 (add64 (add64 (add64 (add64 (add64 (add64 (add64 0
          (sub64 (cur.stat 1) (prev.stat 1))) (sub64 (cur.stat 2) (prev.stat 2)))
          (sub64 (cur.stat 3) (prev.stat 3))) (sub64 (cur.stat 4) (prev.stat 4)))
          (sub64 (cur.stat 5) (prev.stat 5))) (sub64 (cur.stat 6) (prev.stat 6)))
          (sub64 (cur.stat 7) (prev.stat 7))) (sub64 (cur.stat 8) (prev.stat 8)))
          (sub64 (cur.stat 9) (prev.stat 9))) (sub64 (cur.stat 10) (prev.stat 10))
        = _
      rw [e1, e2, e3, e4, e5, e6, e7, e8, e9, e10]
      have g1 : add64 0 (cur.stat 1 - prev.stat 1) = (cur.stat 1 - prev.stat 1) := by
        unfold add64 U64
        omega
      have g2 : add64 ((cur.stat 1 - prev.stat 1)) (cur.stat 2 - prev.stat 2) = (cur.stat 1 - prev.stat 1) + (cur.stat 2 - prev.stat 2) := by
        unfold add64 U64
        omega
      have g3 : add64 ((cur.stat 1 - prev.stat 1) + (cur.stat 2 - prev.stat 2)) (cur.stat 3 - prev.stat 3) = (cur.stat 1 - prev.stat 1) + (cur.stat 2 - prev.stat 2) + (cur.stat 3 - prev.stat 3) := by
        unfold add64 U64
        omega
      have g4 : add64 ((cur.stat 1 - prev.stat 1) + (cur.stat 2 - prev.stat 2) + (cur.stat 3 - prev.stat 3)) (cur.stat 4 - prev.stat 4) = (cur.stat 1 - prev.stat 1) + (cur.stat 2 - prev.stat 2) + (cur.stat 3 - prev.stat 3) + (cur.stat 4 - prev.stat 4) := by
        unfold add64 U64
        omega
      have g5 : add64 ((cur.stat 1 - prev.stat 1) + (cur.stat 2 - prev.stat 2) + (cur.stat 3 - prev.stat 3) + (cur.stat 4 - prev.stat 4)) (cur.stat 5 - prev.stat 5) = (cur.stat 1 - prev.stat 1) + (cur.stat 2 - prev.stat 2) + (cur.stat 3 - prev.stat 3) + (cur.stat 4 - prev.stat 4) + (cur.stat 5 - prev.stat 5) := by
        unfold add64 U64
        omega
      have g6 : add64 ((cur.stat 1 - prev.stat 1) + (cur.stat 2 - prev.stat 2) + (cur.stat 3 - prev.stat 3) + (cur.stat 4 - prev.stat 4) + (cur.stat 5 - prev.stat 5)) (cur.stat 6 - prev.stat 6) = (cur.stat 1 - prev.stat 1) + (cur.stat 2 - prev.stat 2) + (cur.stat 3 - prev.stat 3) + (cur.stat 4 - prev.stat 4) + (cur.stat 5 - prev.stat 5) + (cur.stat 6 - prev.stat 6) := by
        unfold add64 U64
        omega
      have g7 : add64 ((cur.stat 1 - prev.stat 1) + (cur.stat 2 - prev.stat 2) + (cur.stat 3 - prev.stat 3) + (cur.stat 4 - prev.stat 4) + (cur.stat 5 - prev.stat 5) + (cur.stat 6 - prev.stat 6)) (cur.stat 7 - prev.stat 7) = (cur.stat 1 - prev.stat 1) + (cur.stat 2 - prev.stat 2) + (cur.stat 3 - prev.stat 3) + (cur.stat 4 - prev.stat 4) + (cur.stat 5 - prev.stat 5) + (cur.stat 6 - prev.stat 6) + (cur.stat 7 - prev.stat 7) := by
        unfold add64 U64
        omega
      have g8 : add64 ((cur.stat 1 - prev.stat 1) + (cur.stat 2 - prev.stat 2) + (cur.stat 3 - prev.stat 3) + (cur.stat 4 - prev.stat 4) + (cur.stat 5 - prev.stat 5) + (cur.stat 6 - prev.stat 6) + (cur.stat 7 - prev.stat 7)) (cur.stat 8 - prev.stat 8) = (cur.stat 1 - prev.stat 1) + (cur.stat 2 - prev.stat 2) + (cur.stat 3 - prev.stat 3) + (cur.stat 4 - prev.stat 4) + (cur.stat 5 - prev.stat 5) + (cur.stat 6 - prev.stat 6) + (cur.stat 7 - prev.stat 7) + (cur.stat 8 - prev.stat 8) := by
        unfold add64 U64
        omega
      have g9 : add64 ((cur.stat 1 - prev.stat 1) + (cur.stat 2 - prev.stat 2) + (cur.stat 3 - prev.stat 3) + (cur.stat 4 - prev.stat 4) + (cur.stat 5 - prev.stat 5) + (cur.stat 6 - prev.stat 6) + (cur.stat 7 - prev.stat 7) + (cur.stat 8 - prev.stat 8)) (cur.stat 9 - prev.stat 9) = (cur.stat 1 - prev.stat 1) + (cur.stat 2 - prev.stat 2) + (cur.stat 3 - prev.stat 3) + (cur.stat 4 - prev.stat 4) + (cur.stat 5 - prev.stat 5) + (cur.stat 6 - prev.stat 6) + (cur.stat 7 - prev.stat 7) + (cur.stat 8 - prev.stat 8) + (cur.stat 9 - prev.stat 9) := by
        unfold add64 U64
        omega
      have g10 : add64 ((cur.stat 1 - prev.stat 1) + (cur.stat 2 - prev.stat 2) + (cur.stat 3 - prev.stat 3) + (cur.stat 4 - prev.stat 4) + (cur.stat 5 - prev.stat 5) + (cur.stat 6 - prev.stat 6) + (cur.stat 7 - prev.stat 7) + (cur.stat 8 - prev.stat 8) + (cur.stat 9 - prev.stat 9)) (cur.stat 10 - prev.stat 10) = (cur.stat 1 - prev.stat 1) + (cur.stat 2 - prev.stat 2) + (cur.stat 3 - prev.stat 3) + (cur.stat 4 - prev.stat 4) + (cur.stat 5 - prev.stat 5) + (cur.stat 6 - prev.stat 6) + (cur.stat 7 - prev.stat 7) + (cur.stat 8 - prev.stat 8) + (cur.stat 9 - prev.stat 9) + (cur.stat 10 - prev.stat 10) := by
        unfold add64 U64
        omega
      rw [g1, g2, g3, g4, g5, g6, g7, g8, g9, g10]
    have hB : proc_stat_busy cur prev =
        (cur.stat 1 - prev.stat 1) + (cur.stat 2 - prev.stat 2) +
        (cur.stat 3 - prev.stat 3) + (cur.stat 6 - prev.stat 6) +
        (cur.stat 7 - prev.stat 7) + (cur.stat 8 - prev.stat 8) +
        (cur.stat 9 - prev.stat 9) + (cur.stat 10 - prev.stat 10) := by
      show add64 (add64 (add64 (add64 (add64 (add64 (add64 (add64 0
          (sub64 (cur.stat 1) (prev.stat 1))) (sub64 (cur.stat 2) (prev.stat 2)))
          (sub64 (cur.stat 3) (prev.stat 3))) (sub64 (cur.stat 6) (prev.stat 6)))
          (sub64 (cur.stat 7) (prev.stat 7))) (sub64 (cur.stat 8) (prev.stat 8)))
          (sub64 (cur.stat 9) (prev.stat 9))) (sub64 (cur.stat 10) (prev.stat 10))
        = _
      rw [e1, e2, e3, e6, e7, e8, e9, e10]
      have gb1 : add64 0 (cur.stat 1 - prev.stat 1) = (cur.stat 1 - prev.stat 1) := by
        unfold add64 U64
        omega
      have gb2 : add64 ((cur.stat 1 - prev.stat 1)) (cur.stat 2 - prev.stat 2) = (cur.stat 1 - prev.stat 1) + (cur.stat 2 - prev.stat 2) := by
        unfold add64 U64
        omega
      have gb3 : add64 ((cur.stat 1 - prev.stat 1) + (cur.stat 2 - prev.stat 2)) (cur.stat 3 - prev.stat 3) = (cur.stat 1 - prev.stat 1) + (cur.stat 2 - prev.stat 2) + (cur.stat 3 - prev.stat 3) := by
        unfold add64 U64
        omega
      have gb4 : add64 ((cur.stat 1 - prev.stat 1) + (cur.stat 2 - prev.stat 2) + (cur.stat 3 - prev.stat 3)) (cur.stat 6 - prev.stat 6) = (cur.stat 1 - prev.stat 1) + (cur.stat 2 - prev.stat 2) + (cur.stat 3 - prev.stat 3) + (cur.stat 6 - prev.stat 6) := by
        unfold add64 U64
        omega
      have gb5 : add64 ((cur.stat 1 - prev.stat 1) + (cur.stat 2 - prev.stat 2) + (cur.stat 3 - prev.stat 3) + (cur.stat 6 - prev.stat 6)) (cur.stat 7 - prev.stat 7) = (cur.stat 1 - prev.stat 1) + (cur.stat 2 - prev.stat 2) + (cur.stat 3 - prev.stat 3) + (cur.stat 6 - prev.stat 6) + (cur.stat 7 - prev.stat 7) := by
        unfold add64 U64
        omega
      have gb6 : add64 ((cur.stat 1 - prev.stat 1) + (cur.stat 2 - prev.stat 2) + (cur.stat 3 - prev.stat 3) + (cur.stat 6 - prev.stat 6) + (cur.stat 7 - prev.stat 7)) (cur.stat 8 - prev.stat 8) = (cur.stat 1 - prev.stat 1) + (cur.stat 2 - prev.stat 2) + (cur.stat 3 - prev.stat 3) + (cur.stat 6 - prev.stat 6) + (cur.stat 7 - prev.stat 7) + (cur.stat 8 - prev.stat 8) := by
        unfold add64 U64
        omega
      have gb7 : add64 ((cur.stat 1 - prev.stat 1) + (cur.stat 2 - prev.stat 2) + (cur.stat 3 - prev.stat 3) + (cur.stat 6 - prev.stat 6) + (cur.stat 7 - prev.stat 7) + (cur.stat 8 - prev.stat 8)) (cur.stat 9 - prev.stat 9) = (cur.stat 1 - prev.stat 1) + (cur.stat 2 - prev.stat 2) + (cur.stat 3 - prev.stat 3) + (cur.stat 6 - prev.stat 6) + (cur.stat 7 - prev.stat 7) + (cur.stat 8 - prev.stat 8) + (cur.stat 9 - prev.stat 9) := by
        unfold add64 U64
        omega
      have gb8 : add64 ((cur.stat 1 - prev.stat 1) + (cur.stat 2 - prev.stat 2) + (cur.stat 3 - prev.stat 3) + (cur.stat 6 - prev.stat 6) + (cur.stat 7 - prev.stat 7) + (cur.stat 8 - prev.stat 8) + (cur.stat 9 - prev.stat 9)) (cur.stat 10 - prev.stat 10) = (cur.stat 1 - prev.stat 1) + (cur.stat 2 - prev.stat 2) + (cur.stat 3 - prev.stat 3) + (cur.stat 6 - prev.stat 6) + (cur.stat 7 - prev.stat 7) + (cur.stat 8 - prev.stat 8) + (cur.stat 9 - prev.stat 9) + (cur.stat 10 - prev.stat 10) := by
        unfold add64 U64
        omega
      rw [gb1, gb2, gb3, gb4, gb5, gb6, gb7, gb8]
    by_cases ht : proc_stat_total cur prev = 0
    · simp [calculate_busypct, ht]
    · have hBT : proc_stat_busy cur prev ≤ proc_stat_total cur prev := by
        rw [hB, hT]; omega
      have hmul : mul64 (proc_stat_busy cur prev) 10000 =
          proc_stat_busy cur prev * 10000 := by
        have hble : proc_stat_busy cur prev ≤ 10 * 2 ^ 40 := by rw [hB]; omega
        unfold mul64 U64 at *
        omega
      calc calculate_busypct cur prev
          = mul64 (proc_stat_busy cur prev) 10000 / proc_stat_total cur prev := by
            simp [calculate_busypct, ht]
        _ = proc_stat_busy cur prev * 10000 / proc_stat_total cur prev := by rw [hmul]
        _ ≤ proc_stat_total cur prev * 10000 / proc_stat_total cur prev :=
            Nat.div_le_div_right (Nat.mul_le_mul_right 10000 hBT)
        _ = 10000 := Nat.mul_div_cancel_left 10000 (Nat.pos_of_ne_zero ht)

/-- C3 witness: the zero-delta branch and the monotone bound evaluated on a
flat snapshot pair. -/
theorem c3_witness :
    proc_stat_total c3_flat c3_flat = 0 ∧
    calculate_busypct c3_flat c3_flat = 0 ∧
    calculate_busypct c3_flat c3_flat ≤ 10000 :=
  ⟨by decide, (c3_busypct_zero_total c3_flat c3_flat).1 (by decide),
    (c3_busypct_zero_total c3_flat c3_flat).2 (by decide)⟩

/-! ### Claims about the hysteresis filter -/

/-- C4 counterexample: with hysteresis enabled (both thresholds 100), a
rejected SYS_IDLE candidate at avg_in = 1 leaves avg_in at 1 * 6 / 5 = 1:
the unsigned integer division floors the (N+1)/N inflation to the identity
whenever avg_in < N, so the penalized average does not strictly increase. -/
theorem c4_counterexample :
    util_should_proceed .sys_idle 1 0 0 0 100 100 50 50 = (false, 1, 0) ∧
    ¬ (1 < (util_should_proceed .sys_idle 1 0 0 0 100 100 50 50).2.1) := by
  decide

/-- C4 (amended): with hysteresis enabled, a rejected SYS_IDLE candidate
updates avg_in to avg_in * (N+1) / N (integer division, N = DECAY_PERIOD =
5) — a strict increase whenever avg_in ≥ N, but the identity for avg_in < N
— while folding the fresh elapsed time into avg_out by
avg_out * (N-1) / N + cur_out / N; an accepted SYS_IDLE candidate performs
only that fold and leaves avg_in unchanged.  Symmetrically for SYS_OVERLOAD
candidates with the roles of avg_in and avg_out swapped and cur_in in place
of cur_out. -/
theorem c4_hysteresis_updates (avg_in avg_out cur_in cur_out : Nat)
    (in_hyst out_hyst in_min out_min : Nat)
    (hen : ¬ (out_hyst = 0 ∧ in_hyst = 0)) :
    (¬ (in_hyst ≤ avg_in ∧ out_min ≤ cur_out) →
      util_should_proceed .sys_idle avg_in avg_out cur_in cur_out
          in_hyst out_hyst in_min out_min =
        (false, avg_in * (DECAY_PERIOD + 1) / DECAY_PERIOD,
          avg_out * (DECAY_PERIOD - 1) / DECAY_PERIOD + cur_out / DECAY_PERIOD) ∧
      (DECAY_PERIOD ≤ avg_in →
        avg_in < avg_in * (DECAY_PERIOD + 1) / DECAY_PERIOD)) ∧
    ((in_hyst ≤ avg_in ∧ out_min ≤ cur_out) →
      util_should_proceed .sys_idle avg_in avg_out cur_in cur_out
          in_hyst out_hyst in_min out_min =
        (true, avg_in,
          avg_out * (DECAY_PERIOD - 1) / DECAY_PERIOD + cur_out / DECAY_PERIOD)) ∧
    (¬ (out_hyst ≤ avg_out ∧ in_min ≤ cur_in) →
      util_should_proceed .sys_overload avg_in avg_out cur_in cur_out
          in_hyst out_hyst in_min out_min =
        (false, avg_in * (DECAY_PERIOD - 1) / DECAY_PERIOD + cur_in / DECAY_PERIOD,
          avg_out * (DECAY_PERIOD + 1) / DECAY_PERIOD) ∧
      (DECAY_PERIOD ≤ avg_out →
        avg_out < avg_out * (DECAY_PERIOD + 1) / DECAY_PERIOD)) ∧
    ((out_hyst ≤ avg_out ∧ in_min ≤ cur_in) →
      util_should_proceed .sys_overload avg_in avg_out cur_in cur_out
          in_hyst out_hyst in_min out_min =
        (true, avg_in * (DECAY_PERIOD - 1) / DECAY_PERIOD + cur_in / DECAY_PERIOD,
          avg_out)) := by
  refine ⟨fun hc => ⟨?_, ?_⟩, fun hc => ?_, fun hc => ⟨?_, ?_⟩, fun hc => ?_⟩
  · unfold util_should_proceed
    rw [if_neg hen]
    dsimp only
    rw [if_neg hc]
  · intro hd
    simp only [DECAY_PERIOD] at *
    omega
  · unfold util_should_proceed
    rw [if_neg hen]
    dsimp only
    rw [if_pos hc]
  · unfold util_should_proceed
    rw [if_neg hen]
    dsimp only
    rw [if_neg hc]
  · intro hd
    simp only [DECAY_PERIOD] at *
    omega
  · unfold util_should_proceed
    rw [if_neg hen]
    dsimp only
    rw [if_pos hc]

/-- C4 witness: the rejected-idle clause evaluated at avg_in = 10, avg_out =
7, cur_out = 3, thresholds 100. -/
theorem c4_witness :
    ¬ ((100 : Nat) = 0 ∧ (100 : Nat) = 0) ∧
    (util_should_proceed .sys_idle 10 7 0 3 100 100 50 50 =
      (false, 10 * (DECAY_PERIOD + 1) / DECAY_PERIOD,
        7 * (DECAY_PERIOD - 1) / DECAY_PERIOD + 3 / DECAY_PERIOD) ∧
      (DECAY_PERIOD ≤ 10 → 10 < 10 * (DECAY_PERIOD + 1) / DECAY_PERIOD)) :=
  ⟨by decide,
    (c4_hysteresis_updates 10 7 0 3 100 100 50 50 (by decide)).1 (by decide)⟩

/-! ### Claims about the config-state matcher -/

/-- C2 counterexample: with the claim's stored values (threshold 5000, hyst
1000, entry_load_sys 4500) on the currently active state, busy_sys = 5800
does not exceed BOTH bounds (it is below 5000 + 1000 = 6000), so the claim
predicts a match; state_match nevertheless rejects it, because the code
unmatches as soon as EITHER bound is exceeded and 5800 > 4500 + 1000. -/
theorem c2_counterexample :
    state_match c2_state true 5800 0 (-1) 0 = false ∧
    ¬ (c2_state.entry_load_sys + c2_state.exit_system_load_hyst < 5800 ∧
       c2_state.entry_system_load_thres + c2_state.exit_system_load_hyst < 5800) := by
  decide

/-- C2 (amended): an active state with a positive exit_system_load_hyst
whose cpu/gfx checks pass tolerates an overshoot of its entry threshold if
and only if busy_sys exceeds NEITHER entry_load_sys + hyst NOR
entry_system_load_thres + hyst; with stored values (5000, 1000, 4500) the
active state still matches at busy_sys = 5400 but not at 5800 or 6100. -/
theorem c2_sticky_overshoot (s : LpmdConfigState) (bsys bcpu bgfx wlt : Int)
    (hv : s.valid ≠ 0) (hw : s.wlt_type = -1)
    (hc : s.enter_cpu_load_thres = 0 ∨ bcpu ≤ s.enter_cpu_load_thres)
    (hg : s.enter_gfx_load_thres = 0 ∨ bgfx = -1 ∨ bgfx ≤ s.enter_gfx_load_thres)
    (hs : s.entry_system_load_thres ≠ 0) (hover : s.entry_system_load_thres < bsys)
    (hh : 0 < s.exit_system_load_hyst) :
    (state_match s true bsys bcpu bgfx wlt = true ↔
      (bsys ≤ s.entry_load_sys + s.exit_system_load_hyst ∧
       bsys ≤ s.entry_system_load_thres + s.exit_system_load_hyst)) := by
  unfold state_match
  rw [if_neg (by omega), if_neg (by simp [hw]), if_neg (by simp [hw]),
    if_neg (by omega), if_neg (by omega), if_neg (by omega),
    if_pos ⟨hs, hover⟩, if_neg (by simp; omega)]
  constructor
  · intro hm
    by_contra hcon
    rw [if_pos (by omega)] at hm
    exact Bool.false_ne_true hm
  · intro hcon
    rw [if_neg (by omega)]

/-- Scanning a block of non-matching states advances the scan unchanged. -/
theorem process_next_config_state_scan_append (cur : Option Nat)
    (bsys bcpu bgfx wlt : Int) :
    ∀ (pre rest : List LpmdConfigState) (i : Nat),
      (∀ j (h : j < pre.length),
        state_match (pre.get ⟨j, h⟩) (decide (cur = some (i + j))) bsys bcpu bgfx wlt
          = false) →
      process_next_config_state_scan cur bsys bcpu bgfx wlt i (pre ++ rest)
        = process_next_config_state_scan cur bsys bcpu bgfx wlt (i + pre.length) rest := by
  intro pre
  induction pre with
  | nil => intro rest i _; rfl
  | cons p t ih =>
      intro rest i h
      have h0 : state_match p (decide (cur = some i)) bsys bcpu bgfx wlt = false := by
        simpa using h 0 (by simp)
      simp only [List.cons_append, process_next_config_state_scan]
      rw [if_neg (by simp [h0]), List.append_eq]
      rw [ih rest (i + 1)
        (fun j hj => by
          have hx := h (j + 1) (by simpa using Nat.succ_lt_succ hj)
          have harith : i + (j + 1) = i + 1 + j := by omega
          simpa [harith] using hx)]
      congr 1
      simp only [List.length_cons]
      omega

/-- C5: for any configuration list split as pre ++ s :: post in which no
state of the prefix matches and s matches, the scan loop of
process_next_config_state selects s (at index pre.length) — the first
matching state in configuration order — and never reaches the states after
it; in particular for a 3-state list in which state 1 does not match and
state 2 does, state 2 is selected regardless of the contents of state 3. -/
theorem c5_first_match_selected (cur : Option Nat) (bsys bcpu bgfx wlt : Int)
    (pre : List LpmdConfigState) (s : LpmdConfigState) (post : List LpmdConfigState)
    (hpre : ∀ j (h : j < pre.length),
      state_match (pre.get ⟨j, h⟩) (decide (cur = some j)) bsys bcpu bgfx wlt = false)
    (hs : state_match s (decide (cur = some pre.length)) bsys bcpu bgfx wlt = true) :
    process_next_config_state_scan cur bsys bcpu bgfx wlt 0 (pre ++ s :: post)
      = some (pre.length, s) := by
  rw [process_next_config_state_scan_append cur bsys bcpu bgfx wlt pre (s :: post) 0
    (fun j hj => by simpa using hpre j hj)]
  simp only [Nat.zero_add, process_next_config_state_scan, hs, if_true]

/-- C5 witness: a 3-state list in which only states 2 and 3 match; the scan
selects state 2, ignoring state 3. -/
theorem c5_witness :
    state_match c5_state_b (decide ((none : Option Nat) = some 1)) 0 0 0 0 = true ∧
    process_next_config_state_scan none 0 0 0 0 0 [c5_state_a, c5_state_b, c5_state_c]
      = some (1, c5_state_b) :=
  ⟨by decide,
    c5_first_match_selected none 0 0 0 0 [c5_state_a] c5_state_b [c5_state_c]
      (fun j hj => by
        have hj0 : j = 0 := by simpa using hj
        subst hj0
        show state_match c5_state_a (decide ((none : Option Nat) = some 0)) 0 0 0 0
          = false
        decide)
      (by decide)⟩

/-- C2 witness: the amended sticky-overshoot rule evaluated on the concrete
state at busy_sys = 5400, an overshoot the active state tolerates. -/
theorem c2_witness :
    ((0 : Int) < 1000 ∧ (5000 : Int) < 5400) ∧
    (state_match c2_state true 5400 0 (-1) 0 = true ↔
      ((5400 : Int) ≤ 4500 + 1000 ∧ (5400 : Int) ≤ 5000 + 1000)) :=
  ⟨⟨by decide, by decide⟩,
    c2_sticky_overshoot c2_state 5400 0 (-1) 0 (by decide) (by decide)
      (Or.inl (by decide)) (Or.inl (by decide)) (by decide) (by decide) (by decide)⟩

/-! ### Claims about the per-state polling interval -/

/-- C6 counterexample: staying in a state with fixed
poll_interval_increment = 150 and clamps [100, 2000], the recomputed
interval 1000 + 150 = 1150 lies inside the clamps but is not a multiple of
100 ms: nothing on the fixed-increment path rounds to 100 ms. -/
theorem c6_counterexample :
    enter_state_same_interval c6_state 1000 0 = 1150 ∧
    0 < c6_state.poll_interval_increment ∧
    ¬ (enter_state_same_interval c6_state 1000 0 % 100 = 0) := by
  decide

/-- C6 (amended): whenever 0 < min_poll_interval ≤ max_poll_interval, the
interval recomputed by enter_state for the currently active state always
lies in [min_poll_interval, max_poll_interval]; it is additionally a
multiple of 100 ms when the adaptive path is taken (increment sentinel -1)
and both clamps are multiples of 100 — the fixed-increment path gives no
multiple-of-100 guarantee (see the counterexample). -/
theorem c6_interval_clamped (s : LpmdConfigState) (interval bcpu : Int)
    (hmin : 0 < s.min_poll_interval) (hmm : s.min_poll_interval ≤ s.max_poll_interval) :
    (s.min_poll_interval ≤ enter_state_same_interval s interval bcpu ∧
      enter_state_same_interval s interval bcpu ≤ s.max_poll_interval) ∧
    (s.poll_interval_increment = -1 → s.min_poll_interval % 100 = 0 →
      s.max_poll_interval % 100 = 0 →
      enter_state_same_interval s interval bcpu % 100 = 0) := by
  simp only [enter_state_same_interval]
  generalize hgen : enter_state_poll_adjust s interval bcpu = x
  constructor
  · split_ifs <;> omega
  · intro h1 h2 h3
    have hx : x % 100 = 0 := by
      rw [← hgen]
      unfold enter_state_poll_adjust
      rw [if_pos h1]
      generalize s.max_poll_interval * (10000 - bcpu) / 10000 / 100 = k
      omega
    split_ifs <;> omega

/-- C6 witness: the amended bound evaluated on the adaptive state with
clamps [100, 1000] at busy_cpu = 3000 and incoming interval 1000. -/
theorem c6_witness :
    ((0 : Int) < 100 ∧ (100 : Int) ≤ 1000) ∧
    ((100 : Int) ≤ enter_state_same_interval c6_state_adaptive 1000 3000 ∧
      enter_state_same_interval c6_state_adaptive 1000 3000 ≤ 1000) ∧
    (c6_state_adaptive.poll_interval_increment = -1 → (100 : Int) % 100 = 0 →
      (1000 : Int) % 100 = 0 →
      enter_state_same_interval c6_state_adaptive 1000 3000 % 100 = 0) :=
  ⟨⟨by decide, by decide⟩,
    (c6_interval_clamped c6_state_adaptive 1000 3000 (by decide) (by decide)).1,
    (c6_interval_clamped c6_state_adaptive 1000 3000 (by decide) (by decide)).2⟩
